import Mathlib

/-!
Shallow embedding of the retrieval-orchestration and multi-stage-generation
pipeline of the T-mobile-winners repository.

Embedded source files:
- `nemotron_client.py` (the tool-calling session driver `call_with_tools`),
- `vector_db.py` (the retrieval gateway `search` / `retrieve_context` and the
  ingestion write path `add_posts`),
- `agentic_rag.py` (`retrieve_all_platforms`, `direct_prompt`, `query`),
- `multi_agent_system.py` (the four-stage report pipeline `generate_report`),
- `ai_backend.py` (`get_ai_chat_response`).

External collaborators (the NVIDIA chat-completions endpoint, the Azure
search client, the sentence-transformer encoder, the JSON parser) are
modelled as explicit capability functions carried in environment records;
Python exceptions from those capabilities and from repository code are
modelled with `Except String`.
-/

namespace TMW

/-! ## Conversation transcript model (nemotron_client.py)

A message is the Python dict used by `call_with_tools`: a role, an optional
content string (Python `None` / missing is `none`), the list of tool calls
(Python `None` / missing is `[]`) and, for tool-result turns, the id of the
originating call. -/

/-- One structured tool-call request inside an assistant message, after the
normalisation done in `call_with_tools`: id, function name, and the raw
serialized argument payload (parsed later, per call). -/
structure ToolCall where
  id : String
  name : String
  argsRaw : String
deriving Repr, DecidableEq

/-- One transcript turn (a Python message dict). -/
structure Message where
  role : String
  content : Option String
  toolCalls : List ToolCall
  toolCallId : Option String
deriving Repr, DecidableEq

/-- Parsed JSON argument object, as an association list of string fields.
`json.loads` itself is an external capability; see `ToolEnv.parse`. -/
def Args := List (String × String)
deriving DecidableEq

/-- The empty argument object: the fallback `function_args = {}` used when
argument parsing fails. -/
def emptyArgs : Args := []

/-- Capabilities consumed by `NemotronClient.call_with_tools`:
- `step` is one chat-completions round trip: the current transcript plus the
  fixed sampling parameters of the loop payload (temperature, max_tokens) to
  the assistant message of the reply (`data["choices"][0]["message"]`);
- `tools` is the dict mapping tool names to callables; a callable may raise,
  so it returns `Except String String`;
- `parse` is `json.loads` on the raw argument payload, `none` on parse
  failure. -/
structure ToolEnv where
  step : List Message → ℚ → Nat → Message
  tools : String → Option (Args → Except String String)
  parse : String → Option Args

/-- The `temperature` field of the payload sent on every iteration of
`call_with_tools` (nemotron_client.py line 149). -/
def callWithToolsTemperature : ℚ := 0.2

/-- The `max_tokens` field of the payload sent on every iteration of
`call_with_tools` (nemotron_client.py line 151). The payload also carries
`top_p = 0.7`, which no claim mentions and which is elided here. -/
def callWithToolsMaxTokens : Nat := 2048

/-- The default of the `max_iterations` parameter of `call_with_tools`
(nemotron_client.py line 123). -/
def callWithToolsDefaultMaxIterations : Nat := 5

/-- Execution of one requested tool call (nemotron_client.py lines 166-189):
parse the arguments with empty-object fallback, dispatch on the tool name
(unknown name yields an inline error string), catch any exception from the
tool implementation as an inline error string, and wrap the result as a
`role = "tool"` transcript turn tagged with the originating call id. -/
def execToolCall (env : ToolEnv) (tc : ToolCall) : Message :=
  let args := (env.parse tc.argsRaw).getD emptyArgs
  let toolResult :=
    match env.tools tc.name with
    | none => "Error: Tool " ++ tc.name ++ " not found"
    | some impl =>
      match impl args with
      | Except.ok r => r
      | Except.error e => "Error executing tool: " ++ e
  ⟨"tool", some toolResult, [], some tc.id⟩

/-- Python truthiness test `m.get("role") == "assistant" and m.get("content")`
used by the fallback scan of `call_with_tools` (line 193). -/
def isAssistantWithContent (m : Message) : Bool :=
  m.role == "assistant" &&
    (match m.content with
     | some c => !c.isEmpty
     | none => false)

/-- The fallback scan over the exhausted transcript (nemotron_client.py
lines 192-194): the content of the last assistant message whose content is
truthy, if any. -/
def lastAssistantContent (msgs : List Message) : Option String :=
  (msgs.reverse.find? isAssistantWithContent).map fun m => m.content.getD ""

/-- Outcome of one tool-calling session: the final transcript, the returned
string, and the number of LLM round trips that were made. -/
structure SessionOutcome where
  transcript : List Message
  result : String
  llmCalls : Nat
deriving Repr, DecidableEq

/-- The bounded loop of `call_with_tools` (nemotron_client.py lines 143-195),
with the remaining iteration count of `for _ in range(max_iterations)` as
fuel. Each iteration makes exactly one LLM round trip, appends the assistant
message, returns its content when it requests no tool calls, and otherwise
executes every requested call, appends the tool-result turns, and continues.
On exhausted fuel the fallback scan runs; its literal marker is
"Maximum iterations reached". -/
def callWithToolsGo (env : ToolEnv) : Nat → List Message → SessionOutcome
  | 0, msgs =>
    ⟨msgs, (lastAssistantContent msgs).getD "Maximum iterations reached", 0⟩
  | n + 1, msgs =>
    let m := env.step msgs callWithToolsTemperature callWithToolsMaxTokens
    if m.toolCalls = [] then
      ⟨msgs ++ [m], m.content.getD "", 1⟩
    else
      let out := callWithToolsGo env n
        (msgs ++ [m] ++ m.toolCalls.map (execToolCall env))
      ⟨out.transcript, out.result, out.llmCalls + 1⟩

/-- The initial transcript of `call_with_tools` (lines 138-141): the system
and user prompts. -/
def initialMessages (systemPrompt userPrompt : String) : List Message :=
  [⟨"system", some systemPrompt, [], none⟩, ⟨"user", some userPrompt, [], none⟩]

/-- `NemotronClient.call_with_tools` (nemotron_client.py lines 117-195). -/
def call_with_tools (env : ToolEnv) (systemPrompt userPrompt : String)
    (maxIterations : Nat) : String :=
  (callWithToolsGo env maxIterations (initialMessages systemPrompt userPrompt)).result

/-! Basic facts about the session loop. -/

/-- The loop only ever appends to the transcript it is given. -/
theorem callWithToolsGo_transcript_extends (env : ToolEnv) :
    ∀ (n : Nat) (msgs : List Message),
      ∃ rest, (callWithToolsGo env n msgs).transcript = msgs ++ rest := by
  intro n
  induction n with
  | zero => intro msgs; exact ⟨[], by simp [callWithToolsGo]⟩
  | succ n ih =>
    intro msgs
    by_cases h : (env.step msgs callWithToolsTemperature callWithToolsMaxTokens).toolCalls = []
    · exact ⟨[env.step msgs callWithToolsTemperature callWithToolsMaxTokens],
        by simp [callWithToolsGo, h]⟩
    · obtain ⟨rest, hrest⟩ := ih
        (msgs ++ [env.step msgs callWithToolsTemperature callWithToolsMaxTokens]
          ++ (env.step msgs callWithToolsTemperature callWithToolsMaxTokens).toolCalls.map
              (execToolCall env))
      refine ⟨[env.step msgs callWithToolsTemperature callWithToolsMaxTokens]
          ++ (env.step msgs callWithToolsTemperature callWithToolsMaxTokens).toolCalls.map
              (execToolCall env) ++ rest, ?_⟩
      simp only [callWithToolsGo, h, ite_false]
      simpa [List.append_assoc] using hrest

/-- The loop never makes more LLM round trips than it has fuel. -/
theorem callWithToolsGo_llmCalls_le (env : ToolEnv) :
    ∀ (n : Nat) (msgs : List Message), (callWithToolsGo env n msgs).llmCalls ≤ n := by
  intro n
  induction n with
  | zero => intro msgs; simp [callWithToolsGo]
  | succ n ih =>
    intro msgs
    by_cases h : (env.step msgs callWithToolsTemperature callWithToolsMaxTokens).toolCalls = []
    · simp [callWithToolsGo, h]
    · simp only [callWithToolsGo, h, ite_false]
      exact Nat.succ_le_succ (ih _)

/-- Under a capability that always requests tool calls, every iteration of the
loop takes the tool-execution branch, so the loop consumes all its fuel, makes
exactly that many LLM round trips, and ends in the fallback scan. -/
theorem callWithToolsGo_allToolCalls (env : ToolEnv)
    (h : ∀ msgs, (env.step msgs callWithToolsTemperature callWithToolsMaxTokens).toolCalls ≠ []) :
    ∀ (n : Nat) (msgs : List Message),
      (callWithToolsGo env n msgs).llmCalls = n ∧
      (callWithToolsGo env n msgs).result =
        (lastAssistantContent (callWithToolsGo env n msgs).transcript).getD
          "Maximum iterations reached" := by
  intro n
  induction n with
  | zero => intro msgs; simp [callWithToolsGo]
  | succ n ih =>
    intro msgs
    have hne := h msgs
    simp only [callWithToolsGo, hne, ite_false, if_neg]
    exact ⟨by simp [(ih _).1], (ih _).2⟩

/-- A fake LLM step capability that always requests one tool call (for a tool
name that is never registered) and never produces content. -/
def alwaysToolCallStep : List Message → ℚ → Nat → Message :=
  fun _ _ _ => ⟨"assistant", none, [⟨"call-1", "missing_tool", "\x7b\x7d"⟩], none⟩

/-- Session environment in which the model requests a tool call on every turn
and no tool is registered. -/
def envAlwaysToolCall : ToolEnv :=
  ⟨alwaysToolCallStep, fun _ => none, fun _ => some emptyArgs⟩

/-- C2 counterexample: with an LLM capability that requests a tool call on
every turn and assistant messages that never carry content, a session with the
default five iterations returns the literal "Maximum iterations reached" and
not the marker "max iterations reached" that the claim states. -/
theorem call_with_tools_marker_counterexample :
    call_with_tools envAlwaysToolCall "sys" "ask" 5 = "Maximum iterations reached" ∧
    "Maximum iterations reached" ≠ "max iterations reached" := by
  exact ⟨rfl, by decide⟩

/-- C2 (amended): if the LLM capability responds with at least one tool-call
request on every turn, `call_with_tools` makes exactly `maxIterations`
(default 5) LLM round trips and returns, without raising, the content of the
last assistant message that had content if one exists and the literal
"Maximum iterations reached" otherwise. -/
theorem call_with_tools_iteration_cap (env : ToolEnv) (systemPrompt userPrompt : String)
    (maxIterations : Nat)
    (h : ∀ msgs, (env.step msgs callWithToolsTemperature callWithToolsMaxTokens).toolCalls ≠ []) :
    callWithToolsDefaultMaxIterations = 5 ∧
    (callWithToolsGo env maxIterations (initialMessages systemPrompt userPrompt)).llmCalls
      = maxIterations ∧
    call_with_tools env systemPrompt userPrompt maxIterations =
      (lastAssistantContent
        (callWithToolsGo env maxIterations
          (initialMessages systemPrompt userPrompt)).transcript).getD
        "Maximum iterations reached" := by
  refine ⟨rfl, (callWithToolsGo_allToolCalls env h maxIterations _).1,
    (callWithToolsGo_allToolCalls env h maxIterations _).2⟩

/-- Witness for the iteration-cap theorem at a concrete session. -/
theorem call_with_tools_iteration_cap_witness :
    callWithToolsDefaultMaxIterations = 5 ∧
    (callWithToolsGo envAlwaysToolCall 5 (initialMessages "sys" "ask")).llmCalls = 5 ∧
    call_with_tools envAlwaysToolCall "sys" "ask" 5 =
      (lastAssistantContent
        (callWithToolsGo envAlwaysToolCall 5 (initialMessages "sys" "ask")).transcript).getD
        "Maximum iterations reached" :=
  call_with_tools_iteration_cap envAlwaysToolCall "sys" "ask" 5
    (fun _ => List.cons_ne_nil _ _)

/-- C3: when the model requests a tool call whose name is unregistered or
whose implementation raises, the driver does not abort: the executed call
becomes a `role = "tool"` transcript turn tagged with the originating call id
whose content is an error string, that turn is in the session's final
transcript, and the whole session equals the session continued on the
extended transcript (so the next LLM turn still happens). -/
theorem toolcall_error_isolation (env : ToolEnv) (n : Nat) (msgs : List Message) (tc : ToolCall) :
    let m := env.step msgs callWithToolsTemperature callWithToolsMaxTokens
    let continued := callWithToolsGo env n (msgs ++ [m] ++ m.toolCalls.map (execToolCall env))
    tc ∈ m.toolCalls →
    (env.tools tc.name = none ∨
      ∃ impl e, env.tools tc.name = some impl ∧
        impl ((env.parse tc.argsRaw).getD emptyArgs) = Except.error e) →
    (∃ errStr,
      execToolCall env tc = ⟨"tool", some errStr, [], some tc.id⟩ ∧
      (errStr = "Error: Tool " ++ tc.name ++ " not found" ∨
        ∃ e, errStr = "Error executing tool: " ++ e) ∧
      execToolCall env tc ∈ (callWithToolsGo env (n + 1) msgs).transcript) ∧
    callWithToolsGo env (n + 1) msgs =
      ⟨continued.transcript, continued.result, continued.llmCalls + 1⟩ := by
  intro m continued hmem hfail
  have hne : m.toolCalls ≠ [] := List.ne_nil_of_mem hmem
  have hstepEq : callWithToolsGo env (n + 1) msgs =
      ⟨continued.transcript, continued.result, continued.llmCalls + 1⟩ := by
    simp only [callWithToolsGo, continued, m]
    rw [if_neg hne]
  refine ⟨?_, hstepEq⟩
  have hmemMap : execToolCall env tc ∈ m.toolCalls.map (execToolCall env) :=
    List.mem_map_of_mem _ hmem
  have hmemTranscript : execToolCall env tc ∈ (callWithToolsGo env (n + 1) msgs).transcript := by
    obtain ⟨rest, hrest⟩ :=
      callWithToolsGo_transcript_extends env n
        (msgs ++ [m] ++ m.toolCalls.map (execToolCall env))
    have : execToolCall env tc ∈ continued.transcript := by
      rw [hrest]; simp [hmemMap]
    rw [hstepEq]
    exact this
  rcases hfail with h0 | ⟨impl, e, hi, he⟩
  · exact ⟨"Error: Tool " ++ tc.name ++ " not found",
      by simp [execToolCall, h0], Or.inl rfl, hmemTranscript⟩
  · refine ⟨"Error executing tool: " ++ e, ?_, Or.inr ⟨e, rfl⟩, hmemTranscript⟩
    simp [execToolCall, hi, he]

/-- A fake LLM step capability that always requests one call to the registered
tool named "boom". -/
def boomToolCallStep : List Message → ℚ → Nat → Message :=
  fun _ _ _ => ⟨"assistant", none, [⟨"id-1", "boom", "\x7b\x7d"⟩], none⟩

/-- The implementation of the registered tool "boom": it always raises. -/
def boomImpl : Args → Except String String := fun _ => Except.error "kaput"

/-- Session environment with a registered tool whose implementation raises on
every call. -/
def envBoom : ToolEnv :=
  ⟨boomToolCallStep, fun nm => if nm = "boom" then some boomImpl else none,
    fun _ => some emptyArgs⟩

/-- The tool call that `envBoom`'s model requests on every turn. -/
def tcBoom : ToolCall := ⟨"id-1", "boom", "\x7b\x7d"⟩

/-- Witness for tool-call error isolation at a concrete session whose single
registered tool raises. -/
theorem toolcall_error_isolation_witness :
    (∃ errStr,
      execToolCall envBoom tcBoom = ⟨"tool", some errStr, [], some tcBoom.id⟩ ∧
      (errStr = "Error: Tool " ++ tcBoom.name ++ " not found" ∨
        ∃ e, errStr = "Error executing tool: " ++ e) ∧
      execToolCall envBoom tcBoom ∈
        (callWithToolsGo envBoom (0 + 1) (initialMessages "s" "u")).transcript) ∧
    callWithToolsGo envBoom (0 + 1) (initialMessages "s" "u") =
      ⟨(callWithToolsGo envBoom 0 (initialMessages "s" "u"
          ++ [envBoom.step (initialMessages "s" "u") callWithToolsTemperature callWithToolsMaxTokens]
          ++ (envBoom.step (initialMessages "s" "u") callWithToolsTemperature
              callWithToolsMaxTokens).toolCalls.map (execToolCall envBoom))).transcript,
       (callWithToolsGo envBoom 0 (initialMessages "s" "u"
          ++ [envBoom.step (initialMessages "s" "u") callWithToolsTemperature callWithToolsMaxTokens]
          ++ (envBoom.step (initialMessages "s" "u") callWithToolsTemperature
              callWithToolsMaxTokens).toolCalls.map (execToolCall envBoom))).result,
       (callWithToolsGo envBoom 0 (initialMessages "s" "u"
          ++ [envBoom.step (initialMessages "s" "u") callWithToolsTemperature callWithToolsMaxTokens]
          ++ (envBoom.step (initialMessages "s" "u") callWithToolsTemperature
              callWithToolsMaxTokens).toolCalls.map (execToolCall envBoom))).llmCalls + 1⟩ :=
  toolcall_error_isolation envBoom 0 (initialMessages "s" "u") tcBoom
    (List.mem_singleton_self _)
    (Or.inr ⟨boomImpl, "kaput", rfl, rfl⟩)

/-! ## Retrieval gateway (vector_db.py)

`SocialMediaVectorDB.search` embeds the query with the sentence-transformer
encoder and runs one similarity query against the Azure search client. The
encoder and the client are external capabilities folded into
`SearchClient.run`; a raised exception from either is `Except.error`.
`search` itself contains no exception handling (vector_db.py lines 322-356). -/

/-- One ranked hit as consumed by `retrieve_context`: of the selected fields
only `platform` and `text` are read (vector_db.py lines 364-366); the others
are carried by the hit dict but never interpreted and are elided here. -/
structure Hit where
  platform : String
  text : String
deriving Repr, DecidableEq

/-- A metadata filter value: the three branches of the `isinstance` dispatch
in the filter builder (vector_db.py lines 332-338). -/
inductive FilterVal
  | str (s : String)
  | bool (b : Bool)
  | num (n : Int)
deriving Repr, DecidableEq

/-- A metadata filter: the `filter_metadata` dict. -/
def Filter := List (String × FilterVal)
deriving DecidableEq

/-- One `key eq value` clause of the OData filter expression. -/
def filterPart : String × FilterVal → String
  | (k, FilterVal.str v) => k ++ " eq \x27" ++ v ++ "\x27"
  | (k, FilterVal.bool b) => k ++ " eq " ++ (if b then "true" else "false")
  | (k, FilterVal.num n) => k ++ " eq " ++ toString n

/-- The filter expression built by `search`: `None` when `filter_metadata` is
falsy (absent or empty), otherwise the clauses joined with " and ". -/
def filterExpression (fm : Option Filter) : Option String :=
  match fm with
  | none => none
  | some ps =>
    if ps.isEmpty then none
    else some (String.intercalate " and " (ps.map filterPart))

/-- The external search capability behind one brand collection: query text,
`top_k`, optional filter expression to ranked hits; `Except.error` models a
raised exception (collection unreachable, failing query). The query embedding
step is folded in, since its output is consumed only by the client. -/
structure SearchClient where
  run : String → Nat → Option String → Except String (List Hit)

/-- One per-brand searchable collection handle (`SocialMediaVectorDB`). -/
structure SocialMediaVectorDB where
  client : SearchClient

/-- `SocialMediaVectorDB.search` (vector_db.py lines 322-356): build the
filter expression and run the similarity query. There is no `try`/`except`
in this method, so a client failure propagates. -/
def search (db : SocialMediaVectorDB) (query : String) (topK : Nat)
    (fm : Option Filter) : Except String (List Hit) :=
  db.client.run query topK (filterExpression fm)

/-- One numbered context line `"{i}. [{PLATFORM}] {text}"` of
`retrieve_context` (vector_db.py line 366). -/
def formatHit (i : Nat) (r : Hit) : String :=
  toString i ++ ". [" ++ r.platform.toUpper ++ "] " ++ r.text

/-- `SocialMediaVectorDB.retrieve_context` (vector_db.py lines 358-367):
run `search`, report "No relevant posts found." on an empty result, and
otherwise join the numbered entries. A raised exception from `search`
propagates (no handler here either). -/
def retrieve_context (db : SocialMediaVectorDB) (query : String) (topK : Nat)
    (fm : Option Filter) : Except String String :=
  match search db query topK fm with
  | Except.error e => Except.error e
  | Except.ok [] => Except.ok "No relevant posts found."
  | Except.ok results =>
    Except.ok (String.intercalate "\n"
      ((results.enumFrom 1).map fun p => formatHit p.1 p.2))

/-- A search client whose collection is unreachable: every query raises. -/
def failingClient : SearchClient := ⟨fun _ _ _ => Except.error "boom"⟩

/-- A brand collection whose every query raises. -/
def dbUnreachable : SocialMediaVectorDB := ⟨failingClient⟩

/-- A search client whose every query succeeds with zero hits. -/
def emptyClient : SearchClient := ⟨fun _ _ _ => Except.ok []⟩

/-- A reachable brand collection that holds no matching documents. -/
def dbEmpty : SocialMediaVectorDB := ⟨emptyClient⟩

/-- C5 counterexample: on a collection whose underlying query raises, the
gateway's `search` propagates the exception instead of returning the empty
hit list the claim states. -/
theorem search_failure_counterexample :
    search dbUnreachable "network issues" 5 none = Except.error "boom" ∧
    search dbUnreachable "network issues" 5 none ≠ Except.ok [] :=
  ⟨rfl, fun h => Except.noConfusion h⟩

/-- C5 (amended): a failing underlying query propagates out of the gateway's
`search` unchanged, and the empty hit list is returned exactly when the
underlying query succeeds with no hits, in which case `retrieve_context`
reports "No relevant posts found.". -/
theorem search_propagates_failure (db : SocialMediaVectorDB) (query : String)
    (topK : Nat) (fm : Option Filter) :
    (∀ e, db.client.run query topK (filterExpression fm) = Except.error e →
      search db query topK fm = Except.error e) ∧
    (db.client.run query topK (filterExpression fm) = Except.ok [] →
      retrieve_context db query topK fm = Except.ok "No relevant posts found.") := by
  constructor
  · intro e h
    simp [search, h]
  · intro h
    simp [retrieve_context, search, h]

/-- Witness for failure propagation and for the genuine empty-result case at
concrete collections. -/
theorem search_propagates_failure_witness :
    search dbUnreachable "q" 5 none = Except.error "boom" ∧
    retrieve_context dbEmpty "q" 5 none = Except.ok "No relevant posts found." :=
  ⟨(search_propagates_failure dbUnreachable "q" 5 none).1 "boom" rfl,
   (search_propagates_failure dbEmpty "q" 5 none).2 rfl⟩

/-! ## Ingestion write path (vector_db.py add_posts)

The fake search capability's state is the list of stored documents of one
brand collection; `upload_documents` is the Azure upsert, keyed on the
document's `id` field. -/

/-- One post handed to `add_posts`, restricted to the fields that determine
identity and keying; the remaining payload attributes (sentiment, category,
ratings, engagement, dates, ...) are copied verbatim into the document and
are irrelevant to deduplication. -/
structure Post where
  text : String
  platform : String
  postId : String
  carrier : String
deriving Repr, DecidableEq

/-- One stored document of a brand collection, with the index key `id`. -/
structure StoredDoc where
  id : String
  text : String
  platform : String
  postId : String
  carrier : String
deriving Repr, DecidableEq

/-- Azure upsert of one document: replace the stored document with the same
key `id` if present, otherwise append. -/
def upsertDoc (store : List StoredDoc) (d : StoredDoc) : List StoredDoc :=
  if store.any fun s => s.id == d.id then
    store.map fun s => if s.id == d.id then d else s
  else store ++ [d]

/-- `search_client.upload_documents`: upsert every document of the batch in
order. -/
def uploadDocuments (store : List StoredDoc) (docs : List StoredDoc) : List StoredDoc :=
  docs.foldl upsertDoc store

/-- The document dict built for one post (vector_db.py lines 278-310): the
key is a freshly generated uuid4 string, and `post_id` is copied from the
post's metadata as a plain payload field. -/
def buildDoc (id : String) (p : Post) : StoredDoc :=
  ⟨id, p.text, p.platform, p.postId, p.carrier⟩

/-- The batch of documents `add_posts` builds: `for i, p in enumerate(posts)`
with a fresh uuid for each. `uuidGen i` is the value of `str(uuid.uuid4())`
at the i-th iteration. -/
def ingestDocs (uuidGen : Nat → String) (posts : List Post) : List StoredDoc :=
  posts.enum.map fun p => buildDoc (uuidGen p.1) p.2

/-- `SocialMediaVectorDB.add_posts` (vector_db.py lines 259-319): return the
store unchanged on an empty batch or a failed embedding computation,
otherwise upload one freshly-keyed document per post. The uuid generator and
the encoder are external capabilities. -/
def add_posts (uuidGen : Nat → String) (encode : List String → Except String Unit)
    (store : List StoredDoc) (posts : List Post) : List StoredDoc :=
  if posts.isEmpty then store
  else
    match encode (posts.map Post.text) with
    | Except.error _ => store
    | Except.ok _ => uploadDocuments store (ingestDocs uuidGen posts)

/-- Upserting a document whose key is absent from the store appends it. -/
theorem upsertDoc_fresh (store : List StoredDoc) (d : StoredDoc)
    (h : ∀ s ∈ store, s.id ≠ d.id) : upsertDoc store d = store ++ [d] := by
  have hany : (store.any fun s => s.id == d.id) = false := by
    simp only [List.any_eq_false, beq_iff_eq]
    exact h
  simp [upsertDoc, hany]

/-- Uploading a batch of pairwise-fresh documents grows the store by the
batch size. -/
theorem uploadDocuments_fresh_length :
    ∀ (docs store : List StoredDoc),
      (∀ d ∈ docs, ∀ s ∈ store, s.id ≠ d.id) →
      List.Pairwise (fun a b => a.id ≠ b.id) docs →
      (uploadDocuments store docs).length = store.length + docs.length := by
  intro docs
  induction docs with
  | nil => intro store _ _; simp [uploadDocuments]
  | cons d ds ih =>
    intro store hfresh hpw
    have h1 : upsertDoc store d = store ++ [d] :=
      upsertDoc_fresh store d (fun s hs => hfresh d (by simp) s hs)
    have h2 : ∀ x ∈ ds, ∀ s ∈ store ++ [d], s.id ≠ x.id := by
      intro x hx s hs
      rcases List.mem_append.mp hs with hs | hs
      · exact hfresh x (List.mem_cons_of_mem d hx) s hs
      · have hsd : s = d := by simpa using hs
        subst hsd
        exact (List.pairwise_cons.mp hpw).1 x hx
    have h3 := ih (store ++ [d]) h2 (List.pairwise_cons.mp hpw).2
    have h4 : uploadDocuments store (d :: ds) = uploadDocuments (store ++ [d]) ds := by
      simp [uploadDocuments, h1]
    rw [h4, h3]
    simp [List.length_append]
    omega

/-- C7 counterexample: re-submitting the post with `post_id = "p1"` to a
collection that already stores it increases the stored count from 1 to 2,
because the upload is keyed on a fresh uuid, not on the source id. The two
`uuidGen` functions stand for the distinct uuid4 draws of the two calls. -/
theorem add_posts_dedup_counterexample :
    (add_posts (fun i => "a-" ++ toString i) (fun _ => Except.ok ()) []
      [⟨"slow data in region X", "reddit", "p1", "tmobile"⟩]).length = 1 ∧
    (add_posts (fun i => "b-" ++ toString i) (fun _ => Except.ok ())
      (add_posts (fun i => "a-" ++ toString i) (fun _ => Except.ok ()) []
        [⟨"slow data in region X", "reddit", "p1", "tmobile"⟩])
      [⟨"slow data in region X", "reddit", "p1", "tmobile"⟩]).length = 2 := by
  exact ⟨rfl, rfl⟩

/-- C7 (amended): re-submitting documents with an already-stored
`(carrier, platform, post_id)` is not a no-op: every ingested post is
uploaded under a freshly generated uuid key, so as long as the generated ids
are fresh and pairwise distinct (which is what uuid4 provides), a non-empty
batch with a successful embedding step grows the brand collection by the
batch size regardless of duplicate source ids; `post_id` uniqueness is not
enforced by the ingestion path. -/
theorem add_posts_duplicate_insert (uuidGen : Nat → String)
    (encode : List String → Except String Unit)
    (store : List StoredDoc) (posts : List Post)
    (hne : posts ≠ [])
    (henc : encode (posts.map Post.text) = Except.ok ())
    (hfresh : ∀ d ∈ ingestDocs uuidGen posts, ∀ s ∈ store, s.id ≠ d.id)
    (hpw : List.Pairwise (fun a b => a.id ≠ b.id) (ingestDocs uuidGen posts)) :
    (add_posts uuidGen encode store posts).length = store.length + posts.length := by
  have hempty : posts.isEmpty = false := by
    cases posts with
    | nil => exact absurd rfl hne
    | cons a l => rfl
  have hlen : (ingestDocs uuidGen posts).length = posts.length := by
    simp [ingestDocs]
  rw [add_posts, hempty]
  simp only [Bool.false_eq_true, if_false, henc]
  rw [uploadDocuments_fresh_length (ingestDocs uuidGen posts) store hfresh hpw, hlen]

/-- Witness for the duplicate-insert theorem: a store of one document with
`post_id = "p1"` grows to two when the same source post is re-submitted. -/
theorem add_posts_duplicate_insert_witness :
    (add_posts (fun i => "b-" ++ toString i) (fun _ => Except.ok ())
      [⟨"a-0", "slow data in region X", "reddit", "p1", "tmobile"⟩]
      [⟨"slow data in region X", "reddit", "p1", "tmobile"⟩]).length = 1 + 1 :=
  add_posts_duplicate_insert (fun i => "b-" ++ toString i) (fun _ => Except.ok ())
    [⟨"a-0", "slow data in region X", "reddit", "p1", "tmobile"⟩]
    [⟨"slow data in region X", "reddit", "p1", "tmobile"⟩]
    (by decide) rfl (by decide) (by decide)

/-! ## Agentic RAG (agentic_rag.py)

`self.vector_dbs` is an insertion-ordered Python dict, modelled as an
association list; `self.nemotron.chat` is the plain LLM completion
capability (it may raise). -/

/-- The state of one `AgenticRAG` instance in multi-index mode, restricted to
the capabilities its retrieval operations consume. -/
structure AgenticRAGEnv where
  dbs : List (String × SocialMediaVectorDB)
  chat : List Message → Except String String

/-- `AgenticRAG.retrieve_all_platforms` (agentic_rag.py lines 193-209):
consult only the keys "reddit" and "playstore", collect one labelled section
per present key, and join with blank lines. The `retrieve_context` calls are
not guarded, so a raised retrieval exception propagates. -/
def retrieve_all_platforms (rag : AgenticRAGEnv) (searchQuery : String)
    (topKPerPlatform : Nat) : Except String String :=
  let redditSections : Except String (List String) :=
    match rag.dbs.lookup "reddit" with
    | none => Except.ok []
    | some db =>
      match retrieve_context db searchQuery topKPerPlatform none with
      | Except.error e => Except.error e
      | Except.ok ctx => Except.ok ["[Reddit Posts]\n" ++ ctx]
  match redditSections with
  | Except.error e => Except.error e
  | Except.ok results =>
    match rag.dbs.lookup "playstore" with
    | none => Except.ok (String.intercalate "\n\n" results)
    | some db =>
      match retrieve_context db searchQuery topKPerPlatform none with
      | Except.error e => Except.error e
      | Except.ok ctx =>
        Except.ok (String.intercalate "\n\n"
          (results ++ ["[Google Play Store Reviews]\n" ++ ctx]))

/-- A multi-index configuration in which the reddit collection is reachable
but empty and the playstore collection raises on every query. -/
def ragOneFailing : AgenticRAGEnv :=
  ⟨[("reddit", dbEmpty), ("playstore", dbUnreachable)], fun _ => Except.ok "resp"⟩

/-- A multi-index configuration in which both platform collections are
reachable and empty. -/
def ragBothEmpty : AgenticRAGEnv :=
  ⟨[("reddit", dbEmpty), ("playstore", dbEmpty)], fun _ => Except.ok "resp"⟩

/-- C6 counterexample: with the reddit query succeeding and the playstore
query raising, `retrieve_all_platforms` propagates the exception — it raises
instead of returning a formatted output with a section per platform. -/
theorem retrieve_all_platforms_throw_counterexample :
    retrieve_all_platforms ragOneFailing "network issues" 3 = Except.error "boom" := rfl

/-- C6 (amended): `retrieve_all_platforms` enumerates only the "reddit" and
"playstore" keys. When both are configured, a raised playstore query makes
the whole operation raise; only when every consulted platform query succeeds
does the output carry one header per configured platform, a zero-hit
platform showing the "No relevant posts found." context. -/
theorem retrieve_all_platforms_sections (rag : AgenticRAGEnv) (q : String) (k : Nat)
    (rdb pdb : SocialMediaVectorDB)
    (hr : rag.dbs.lookup "reddit" = some rdb)
    (hp : rag.dbs.lookup "playstore" = some pdb) :
    (∀ ctxr e, retrieve_context rdb q k none = Except.ok ctxr →
      retrieve_context pdb q k none = Except.error e →
      retrieve_all_platforms rag q k = Except.error e) ∧
    (∀ ctxr ctxp, retrieve_context rdb q k none = Except.ok ctxr →
      retrieve_context pdb q k none = Except.ok ctxp →
      retrieve_all_platforms rag q k =
        Except.ok ("[Reddit Posts]\n" ++ ctxr ++ "\n\n" ++
          ("[Google Play Store Reviews]\n" ++ ctxp))) := by
  constructor
  · intro ctxr e h1 h2
    simp [retrieve_all_platforms, hr, hp, h1, h2]
  · intro ctxr ctxp h1 h2
    simp only [retrieve_all_platforms, hr, hp, h1, h2]
    rfl

/-- Witness for the section-structure theorem: the raising playstore
configuration propagates "boom", and the two-empty-platform configuration
produces both headers with "No relevant posts found." sections. -/
theorem retrieve_all_platforms_sections_witness :
    retrieve_all_platforms ragOneFailing "q" 3 = Except.error "boom" ∧
    retrieve_all_platforms ragBothEmpty "q" 3 =
      Except.ok ("[Reddit Posts]\n" ++ "No relevant posts found." ++ "\n\n" ++
        ("[Google Play Store Reviews]\n" ++ "No relevant posts found.")) :=
  ⟨(retrieve_all_platforms_sections ragOneFailing "q" 3 dbEmpty dbUnreachable rfl rfl).1
      "No relevant posts found." "boom" rfl rfl,
   (retrieve_all_platforms_sections ragBothEmpty "q" 3 dbEmpty dbEmpty rfl rfl).2
      "No relevant posts found." "No relevant posts found." rfl rfl⟩

/-- C9: a multi-index configuration with neither a "reddit" nor a
"playstore" key makes `retrieve_all_platforms` return the empty string for
every query and every per-platform top-k. -/
theorem retrieve_all_platforms_empty_on_carrier_keys (rag : AgenticRAGEnv)
    (q : String) (k : Nat)
    (h1 : rag.dbs.lookup "reddit" = none)
    (h2 : rag.dbs.lookup "playstore" = none) :
    retrieve_all_platforms rag q k = Except.ok "" := by
  simp [retrieve_all_platforms, h1, h2, String.intercalate]

/-- The carrier-keyed configuration that `MultiAgentSystem._auto_initialize_rag`
and `ai_backend.initialize_ai` build: one collection per carrier under the
keys "tmobile", "att", "verizon". -/
def carrierRag : AgenticRAGEnv :=
  ⟨[("tmobile", dbEmpty), ("att", dbEmpty), ("verizon", dbEmpty)],
    fun _ => Except.ok "resp"⟩

/-- Witness: on the carrier-keyed configuration, the registered
search-all-platforms tool retrieves nothing. -/
theorem retrieve_all_platforms_empty_on_carrier_keys_witness :
    retrieve_all_platforms carrierRag "network issues" 10 = Except.ok "" :=
  retrieve_all_platforms_empty_on_carrier_keys carrierRag "network issues" 10 rfl rfl

/-! ## Direct-answer path (agentic_rag.py direct_prompt) -/

/-- The section header names of `direct_prompt` (agentic_rag.py lines
332-337); an unknown key falls back to Python `str.title()`, which for the
single-word lowercase keys used here coincides with capitalisation. -/
def headerFor (key : String) : String :=
  if key = "reddit" then "Reddit Posts"
  else if key = "playstore" then "Google Play Store Reviews"
  else if key = "appstore" then "Apple App Store Reviews"
  else if key = "default" then "Social Media Posts"
  else key.capitalize

/-- The per-key body of the retrieval loop of `direct_prompt` (lines
326-340): skip keys without a configured collection; a successful retrieval
yields a headed section, a raised retrieval exception is caught per key and
converted into an inline "[{key}] Retrieval error: ..." section. -/
def contextSection (rag : AgenticRAGEnv) (retrievalQuery : String) (topK : Nat)
    (fm : Option Filter) (key : String) : Option String :=
  match rag.dbs.lookup key with
  | none => none
  | some db =>
    match retrieve_context db retrievalQuery topK fm with
    | Except.ok ctx => some ("[" ++ headerFor key ++ "]\n" ++ ctx)
    | Except.error e => some ("[" ++ key ++ "] Retrieval error: " ++ e)

/-- The default system prompt of `direct_prompt` (lines 344-348). -/
def directDefaultSystemPrompt : String :=
  "You are an assistant analyzing user feedback from multiple sources. " ++
  "Use the retrieved context below to answer the user\x27s question. " ++
  "If the context is insufficient, state what additional data would be needed."

/-- The final user prompt of `direct_prompt` (lines 349-352). -/
def directFinalUserPrompt (prompt combined : String) : String :=
  "User Question:\n" ++ prompt ++ "\n\nRetrieved Context:\n" ++ combined ++
  "\n\nProvide a concise, accurate answer synthesizing the context."

/-- The two messages `direct_prompt` sends to `nemotron.chat` (lines
354-360), after eager retrieval over the requested platforms (all configured
keys when none are requested) and context concatenation; with no sections
the context block is "No context retrieved.". -/
def directPromptMessages (rag : AgenticRAGEnv) (prompt : String)
    (retrievalQuery : Option String) (platforms : Option (List String))
    (topK : Nat) (systemPrompt : Option String) (filterMetadata : Option Filter) :
    List Message :=
  let rq := retrievalQuery.getD prompt
  let plats := platforms.getD (rag.dbs.map Prod.fst)
  let fm : Option Filter :=
    match filterMetadata with
    | some f => if f.isEmpty then none else some f
    | none => none
  let sections := plats.filterMap (contextSection rag rq topK fm)
  let combined :=
    if sections.isEmpty then "No context retrieved."
    else String.intercalate "\n\n" sections
  let sys := systemPrompt.getD directDefaultSystemPrompt
  [⟨"system", some sys, [], none⟩,
   ⟨"user", some (directFinalUserPrompt prompt combined), [], none⟩]

/-- `AgenticRAG.direct_prompt` (agentic_rag.py lines 291-369). The
`NemotronClient` has a `chat` method, so the `hasattr` probe takes the chat
branch; any exception from retrieval is already converted per key inside
`directPromptMessages`, and any exception from the completion is caught and
converted to the literal error string. -/
def direct_prompt (rag : AgenticRAGEnv) (prompt : String)
    (retrievalQuery : Option String) (platforms : Option (List String))
    (topK : Nat) (systemPrompt : Option String) (filterMetadata : Option Filter) :
    String :=
  match rag.chat
      (directPromptMessages rag prompt retrievalQuery platforms topK systemPrompt
        filterMetadata) with
  | Except.ok r => r
  | Except.error e => "Error generating response: " ++ e

/-- C4: `direct_prompt` always returns text (it is a total `String`-valued
function even though retrieval and completion can raise), and its result is
either the model text of the one completion call or the literal
"Error generating response: ..." string — the one failure mode. -/
theorem direct_prompt_never_raises (rag : AgenticRAGEnv) (prompt : String)
    (retrievalQuery : Option String) (platforms : Option (List String))
    (topK : Nat) (systemPrompt : Option String) (filterMetadata : Option Filter) :
    (∃ t, rag.chat (directPromptMessages rag prompt retrievalQuery platforms topK
        systemPrompt filterMetadata) = Except.ok t ∧
      direct_prompt rag prompt retrievalQuery platforms topK systemPrompt
        filterMetadata = t) ∨
    (∃ e, rag.chat (directPromptMessages rag prompt retrievalQuery platforms topK
        systemPrompt filterMetadata) = Except.error e ∧
      direct_prompt rag prompt retrievalQuery platforms topK systemPrompt
        filterMetadata = "Error generating response: " ++ e) := by
  cases h : rag.chat (directPromptMessages rag prompt retrievalQuery platforms topK
      systemPrompt filterMetadata) with
  | ok t => exact Or.inl ⟨t, rfl, by simp [direct_prompt, h]⟩
  | error e => exact Or.inr ⟨e, rfl, by simp [direct_prompt, h]⟩

/-! ## Backend chat wrapper (ai_backend.py get_ai_chat_response) -/

/-- The parameter names of `AgenticRAG.direct_prompt` after the positional
`prompt` slot taken by `query` (agentic_rag.py lines 291-299); the method has
no `**kwargs` catch-all. -/
def directPromptParams : List String :=
  ["prompt", "retrieval_query", "platforms", "top_k", "system_prompt",
   "filter_metadata"]

/-- The keyword-argument names of the call
`_ai_system.agentic_rag.direct_prompt(query, k=10)` (ai_backend.py line
1340). -/
def getAiChatResponseKwargNames : List String := ["k"]

/-- Python keyword binding for a function without `**kwargs`: the call raises
`TypeError` unless every supplied keyword names a parameter. -/
def bindKeywordNames (params kwargs : List String) : Except String Unit :=
  if kwargs.all params.contains then Except.ok ()
  else Except.error "TypeError: unexpected keyword argument"

/-- `ai_backend.get_ai_chat_response` (lines 1311-1355): `none` models the
guard returns and the `except Exception` handler; `clean` models
`_clean_nemotron_response`, whose regex engine is an external capability.
The success branch is what the handler would run had the keyword binding
succeeded (it cannot, since "k" is not a parameter of `direct_prompt`). -/
def get_ai_chat_response (clean : String → String) (rag : Option AgenticRAGEnv)
    (query : String) : Option String :=
  match rag with
  | none => none
  | some r =>
    match bindKeywordNames directPromptParams getAiChatResponseKwargNames with
    | Except.error _ => none
    | Except.ok _ =>
      let response := direct_prompt r query none none 10 none none
      if !response.isEmpty && !(response.startsWith "Error generating response") then
        some (clean response)
      else none

/-- C10: with the AI system and its AgenticRAG initialized, the chat wrapper
still returns `none` on every query: the `k=10` keyword does not bind to any
parameter of `direct_prompt`, so the call raises `TypeError`, which the
surrounding handler converts to `none`. -/
theorem get_ai_chat_response_always_none (clean : String → String)
    (rag : AgenticRAGEnv) (query : String) :
    get_ai_chat_response clean (some rag) query = none := by
  have h : bindKeywordNames directPromptParams getAiChatResponseKwargNames =
      Except.error "TypeError: unexpected keyword argument" := rfl
  simp [get_ai_chat_response, h]

/-! ## Multi-stage report pipeline (multi_agent_system.py)

The four stage prompts are transcribed from the f-string templates; each
template is split at its interpolation holes so that a prior stage's output
appears literally between a fixed prefix and a fixed suffix. -/

/-- `AgenticRAG.query` as invoked with an explicit system prompt
(agentic_rag.py lines 226-289): the tool registry and schemas are carried
inside the session environment, and the bounded tool-calling session runs
with the default five iterations. -/
def agenticRagQuery (env : ToolEnv) (userQuery systemPrompt : String) : String :=
  call_with_tools env systemPrompt userQuery callWithToolsDefaultMaxIterations

/-- The sampling temperature of the outline stage (multi_agent_system.py
line 239). Temperatures are modelled as exact rationals; only their relative
order matters to the claims. -/
def outlineTemperature : ℚ := 0.3

/-- The sampling temperature of the draft (writer) stage (line 281). -/
def draftTemperature : ℚ := 0.4

/-- The sampling temperature of the edit (editor) stage (line 332). -/
def editTemperature : ℚ := 0.2

/-- The sampling temperature of the research stage: its LLM round trips all
go through the `call_with_tools` loop, whose payload temperature is fixed at
`callWithToolsTemperature` (nemotron_client.py line 149). -/
def researchTemperature : ℚ := callWithToolsTemperature

/-- The research agent's system prompt (multi_agent_system.py lines
136-177). -/
def researchSystemPrompt : String :=
  "You are a Research Agent with access to UNIFIED carrier indexes containing data from:\n" ++
  "- Reddit community discussions (r/tmobile, r/verizon, r/ATT)\n" ++
  "- Google Play Store reviews (Android app feedback)\n" ++
  "- Apple App Store reviews (iOS app feedback)\n\n" ++
  "MANDATORY RESEARCH PROTOCOL:\n" ++
  "1. You MUST use retrieval tools to gather data from ALL platforms\n" ++
  "2. For single-carrier analysis: Use \x27retrieve_carrier_feedback\x27 (gets all platforms)\n" ++
  "3. For competitive analysis: Use \x27retrieve_competitive_comparison\x27 (gets all carriers × all platforms)\n" ++
  "4. You may use \x27retrieve_platform_specific\x27 for deep-dives, but ONLY after getting comprehensive data\n\n" ++
  "YOUR RESEARCH SUMMARY MUST INCLUDE:\n" ++
  "1. DATA SOURCES SECTION:\n" ++
  "   - Explicitly list which platforms were searched\n" ++
  "   - Note the volume of data from each platform\n" ++
  "   - Mention any platforms with limited/no data\n\n" ++
  "2. PLATFORM-BY-PLATFORM ANALYSIS:\n" ++
  "   - Reddit Findings: Community sentiment, recurring discussions, pain points\n" ++
  "   - Play Store Findings: Android-specific issues, app ratings, common complaints\n" ++
  "   - App Store Findings: iOS-specific issues, app ratings, user feedback\n\n" ++
  "3. CROSS-PLATFORM PATTERNS:\n" ++
  "   - Issues mentioned on Reddit AND in app reviews\n" ++
  "   - Problems affecting both Android and iOS users\n" ++
  "   - Universal complaints vs platform-specific issues\n\n" ++
  "4. STATISTICAL BREAKDOWN:\n" ++
  "   - Sentiment distribution per platform\n" ++
  "   - Category frequency per platform\n" ++
  "   - Rating averages (for app stores)\n" ++
  "   - Engagement metrics (Reddit scores, review counts)\n\n" ++
  "5. KEY THEMES WITH PLATFORM ATTRIBUTION:\n" ++
  "   - For EACH major theme, specify which platforms it appears on\n" ++
  "   - Example: \x27Network connectivity issues (Reddit: 45 mentions, Play Store: 32 1-star reviews, App Store: 28 1-star reviews)\x27\n\n" ++
  "6. NOTABLE EXAMPLES FROM EACH PLATFORM:\n" ++
  "   - Quote specific Reddit posts\n" ++
  "   - Quote specific Play Store reviews\n" ++
  "   - Quote specific App Store reviews\n\n" ++
  "CRITICAL: Your summary will be used by other agents. It must be:\n" ++
  "- Comprehensive (covering ALL platforms)\n" ++
  "- Structured (organized by platform)\n" ++
  "- Factual (based only on retrieved data)\n" ++
  "- Detailed (with specific examples and statistics)\n\n" ++
  "DO NOT proceed without retrieving data from all available platforms."

/-- The research agent's user prompt template (lines 180-192). -/
def researchPrompt (userQuery : String) : String :=
  "RESEARCH REQUEST: " ++ userQuery ++ "\n\n" ++
  "MANDATORY INSTRUCTIONS:\n" ++
  "1. Retrieve feedback from ALL platforms (Reddit + Play Store + App Store)\n" ++
  "2. If analyzing multiple carriers, retrieve from ALL carriers\n" ++
  "3. Gather at least 10 results per platform for statistical significance\n" ++
  "4. Create a comprehensive research summary following the required structure\n\n" ++
  "Your research MUST cover:\n" ++
  "- Reddit community discussions and sentiment\n" ++
  "- Google Play Store Android user feedback and ratings\n" ++
  "- Apple App Store iOS user feedback and ratings\n\n" ++
  "Begin your research now. Use the retrieval tools to gather comprehensive multi-platform data."

/-- The outline agent's system prompt (lines 207-214). -/
def outlineSystemPrompt : String :=
  "You are an Outline Agent. Your job is to create a logical, " ++
  "well-structured outline for a service improvement report.\n\n" ++
  "The outline should be detailed, with clear sections and subsections. " ++
  "It should flow logically from problem identification to solutions.\n\n" ++
  "If the research includes data from multiple platforms (Reddit, Play Store), " ++
  "consider organizing findings by platform where appropriate."

/-- The fixed text of the outline user prompt before the research summary
hole (lines 216-221), including the original-query hole. -/
def outlineUserPromptPre (userQuery : String) : String :=
  "\n# Original Query:\n" ++ userQuery ++ "\n\n# Research Summary:\n"

/-- The fixed text of the outline user prompt after the research summary
hole (lines 222-237). -/
def outlineUserPromptPost : String :=
  "\n\n# Task:\n" ++
  "Based on the research summary above, create a detailed, numbered outline for a\n" ++
  "comprehensive service improvement report. The outline should include:\n\n" ++
  "1. Executive Summary section\n" ++
  "2. Data Sources section (mention which platforms were analyzed)\n" ++
  "3. Problem Analysis section (with subsections for each major issue)\n" ++
  "4. Platform-Specific Insights (if applicable - e.g., App Issues vs Service Issues)\n" ++
  "5. Recommendations section (with specific, actionable suggestions)\n" ++
  "6. Implementation Priority section\n" ++
  "7. Conclusion section\n\n" ++
  "Make the outline specific and detailed, with clear subsection headings.\n" ++
  "Format it as a numbered list with proper indentation for subsections.\n"

/-- The outline agent's user prompt (lines 216-237). -/
def outlineUserPrompt (userQuery researchSummary : String) : String :=
  outlineUserPromptPre userQuery ++ researchSummary ++ outlineUserPromptPost

/-- The writer agent's system prompt (lines 252-263). -/
def writerSystemPrompt : String :=
  "You are a professional Report Writer. Your job is to expand the " ++
  "provided outline into a coherent, well-written draft.\n\n" ++
  "CRITICAL RULES:\n" ++
  "1. You MUST use the Research Summary as your ONLY source of facts\n" ++
  "2. You MUST follow the outline structure exactly\n" ++
  "3. Write in a professional, clear, and actionable tone\n" ++
  "4. Do not invent facts or information not in the research summary\n" ++
  "5. Make recommendations specific and implementable\n" ++
  "6. When citing feedback, mention the source platform (Reddit/Play Store) if relevant\n" ++
  "7. Use specific examples from the research summary to support your points"

/-- The fixed text of the writer user prompt before the research summary
hole (lines 265-266). -/
def writerUserPromptPre : String :=
  "\n# Research Summary (Your Source of Facts):\n"

/-- The fixed text of the writer user prompt between the research summary
hole and the outline hole (lines 267-269). -/
def writerUserPromptMid : String :=
  "\n\n# Outline to Follow:\n"

/-- The fixed text of the writer user prompt after the outline hole (lines
270-279). -/
def writerUserPromptPost : String :=
  "\n\n# Task:\n" ++
  "Write the full report draft now. Expand each section of the outline into detailed,\n" ++
  "well-written content. Use the research summary for all facts and data. Follow the\n" ++
  "outline structure exactly. Make sure recommendations are specific and actionable.\n\n" ++
  "When discussing user feedback, cite specific examples and mention which platform\n" ++
  "they came from (Reddit discussions or Play Store reviews) when relevant.\n"

/-- The writer agent's user prompt (lines 265-279). -/
def writerUserPrompt (researchSummary outline : String) : String :=
  writerUserPromptPre ++ researchSummary ++ writerUserPromptMid ++ outline ++
    writerUserPromptPost

/-- The editor agent's system prompt (lines 295-307). -/
def editorSystemPrompt : String :=
  "You are an Editor Agent (The Critic). Your job is to review the draft " ++
  "for factual accuracy, structural compliance, and overall quality.\n\n" ++
  "Your responsibilities:\n" ++
  "1. Verify all facts against the research summary\n" ++
  "2. Ensure the draft follows the outline structure\n" ++
  "3. Check for clarity, coherence, and professional tone\n" ++
  "4. Verify that platform sources are correctly attributed\n" ++
  "5. Suggest improvements while maintaining accuracy\n" ++
  "6. Remove any information not supported by the research summary\n" ++
  "7. Ensure recommendations are actionable and specific\n\n" ++
  "Output the final, polished report."

/-- The fixed text of the editor user prompt before the research summary
hole (lines 309-310). -/
def editorUserPromptPre : String :=
  "\n# Research Summary (Factual Reference):\n"

/-- The fixed text of the editor user prompt between the research summary
hole and the outline hole (lines 311-313). -/
def editorUserPromptMid1 : String :=
  "\n\n# Original Outline (Structure Reference):\n"

/-- The fixed text of the editor user prompt between the outline hole and
the draft hole (lines 314-316). -/
def editorUserPromptMid2 : String :=
  "\n\n# Draft to Review:\n"

/-- The fixed text of the editor user prompt after the draft hole (lines
317-330). -/
def editorUserPromptPost : String :=
  "\n\n# Task:\n" ++
  "Review this draft carefully. Check for:\n" ++
  "1. Factual accuracy (compare against research summary)\n" ++
  "2. Structural compliance (does it follow the outline?)\n" ++
  "3. Clarity and professionalism\n" ++
  "4. Proper attribution of sources (Reddit vs Play Store)\n" ++
  "5. Actionability of recommendations\n\n" ++
  "Output the final, polished report with any necessary corrections and improvements.\n" ++
  "Do not add new facts not in the research summary.\n" ++
  "Ensure all platform attributions are accurate.\n"

/-- The editor agent's user prompt (lines 309-330). -/
def editorUserPrompt (researchSummary outline draft : String) : String :=
  editorUserPromptPre ++ researchSummary ++ editorUserPromptMid1 ++ outline ++
    editorUserPromptMid2 ++ draft ++ editorUserPromptPost

/-- The capabilities consumed by one `MultiAgentSystem`: the plain completion
call of `NemotronClient.call`, and the tool-calling session environment
behind its `AgenticRAG`. -/
structure MASEnv where
  nemotronCall : String → String → ℚ → Nat → String
  rag : ToolEnv

/-- `MultiAgentSystem._research_agent` (lines 124-194). -/
def researchAgent (env : MASEnv) (userQuery : String) : String :=
  agenticRagQuery env.rag (researchPrompt userQuery) researchSystemPrompt

/-- `MultiAgentSystem._outline_agent` (lines 196-239). -/
def outlineAgent (env : MASEnv) (researchSummary userQuery : String) : String :=
  env.nemotronCall outlineSystemPrompt (outlineUserPrompt userQuery researchSummary)
    outlineTemperature 1024

/-- `MultiAgentSystem._writer_agent` (lines 241-281). -/
def writerAgent (env : MASEnv) (researchSummary outline : String) : String :=
  env.nemotronCall writerSystemPrompt (writerUserPrompt researchSummary outline)
    draftTemperature 2048

/-- `MultiAgentSystem._editor_agent` (lines 283-332). -/
def editorAgent (env : MASEnv) (researchSummary outline draft : String) : String :=
  env.nemotronCall editorSystemPrompt (editorUserPrompt researchSummary outline draft)
    editTemperature 2048

/-- The four-stage output bundle of one pipeline run (the dict returned at
lines 117-122). -/
structure ReportBundle where
  research_summary : String
  outline : String
  draft : String
  final_report : String
deriving Repr, DecidableEq

/-- `MultiAgentSystem.generate_report` (lines 83-122): the strict sequential
pipeline research, outline, draft, edit, each later stage's prompt built
from the earlier outputs. -/
def generate_report (env : MASEnv) (userQuery : String) : ReportBundle :=
  let researchSummary := researchAgent env userQuery
  let outline := outlineAgent env researchSummary userQuery
  let draft := writerAgent env researchSummary outline
  let finalReport := editorAgent env researchSummary outline draft
  ⟨researchSummary, outline, draft, finalReport⟩

/-- `sub` occurs in `s` as a contiguous substring. -/
def ContainsSubstr (s sub : String) : Prop := ∃ a b, s = a ++ sub ++ b

/-- The outline user prompt carries the research summary verbatim. -/
theorem outlineUserPrompt_contains_research (uq rs : String) :
    ContainsSubstr (outlineUserPrompt uq rs) rs :=
  ⟨outlineUserPromptPre uq, outlineUserPromptPost, rfl⟩

/-- The writer user prompt carries the research summary verbatim. -/
theorem writerUserPrompt_contains_research (rs outline : String) :
    ContainsSubstr (writerUserPrompt rs outline) rs :=
  ⟨writerUserPromptPre, writerUserPromptMid ++ outline ++ writerUserPromptPost,
    by simp [writerUserPrompt, String.append_assoc]⟩

/-- The writer user prompt carries the outline verbatim. -/
theorem writerUserPrompt_contains_outline (rs outline : String) :
    ContainsSubstr (writerUserPrompt rs outline) outline :=
  ⟨writerUserPromptPre ++ rs ++ writerUserPromptMid, writerUserPromptPost, rfl⟩

/-- The editor user prompt carries the research summary verbatim. -/
theorem editorUserPrompt_contains_research (rs outline draft : String) :
    ContainsSubstr (editorUserPrompt rs outline draft) rs :=
  ⟨editorUserPromptPre,
    editorUserPromptMid1 ++ outline ++ editorUserPromptMid2 ++ draft ++ editorUserPromptPost,
    by simp [editorUserPrompt, String.append_assoc]⟩

/-- The editor user prompt carries the outline verbatim. -/
theorem editorUserPrompt_contains_outline (rs outline draft : String) :
    ContainsSubstr (editorUserPrompt rs outline draft) outline :=
  ⟨editorUserPromptPre ++ rs ++ editorUserPromptMid1,
    editorUserPromptMid2 ++ draft ++ editorUserPromptPost,
    by simp [editorUserPrompt, String.append_assoc]⟩

/-- The editor user prompt carries the draft verbatim. -/
theorem editorUserPrompt_contains_draft (rs outline draft : String) :
    ContainsSubstr (editorUserPrompt rs outline draft) draft :=
  ⟨editorUserPromptPre ++ rs ++ editorUserPromptMid1 ++ outline ++ editorUserPromptMid2,
    editorUserPromptPost, rfl⟩

/-- C1: for every pipeline run (any fixed LLM capabilities), the bundle
returned by `generate_report` holds all four stage outputs, and the LLM
prompt of the outline stage contains the research summary verbatim, the
draft stage's prompt contains the research summary and the outline, and the
edit stage's prompt contains the research summary, the outline and the
draft. -/
theorem generate_report_sequencing (env : MASEnv) (userQuery : String) :
    (generate_report env userQuery).research_summary = researchAgent env userQuery ∧
    (∃ p, (generate_report env userQuery).outline =
        env.nemotronCall outlineSystemPrompt p outlineTemperature 1024 ∧
      ContainsSubstr p (generate_report env userQuery).research_summary) ∧
    (∃ p, (generate_report env userQuery).draft =
        env.nemotronCall writerSystemPrompt p draftTemperature 2048 ∧
      ContainsSubstr p (generate_report env userQuery).research_summary ∧
      ContainsSubstr p (generate_report env userQuery).outline) ∧
    (∃ p, (generate_report env userQuery).final_report =
        env.nemotronCall editorSystemPrompt p editTemperature 2048 ∧
      ContainsSubstr p (generate_report env userQuery).research_summary ∧
      ContainsSubstr p (generate_report env userQuery).outline ∧
      ContainsSubstr p (generate_report env userQuery).draft) := by
  refine ⟨rfl,
    ⟨outlineUserPrompt userQuery (generate_report env userQuery).research_summary,
      rfl, outlineUserPrompt_contains_research _ _⟩,
    ⟨writerUserPrompt (generate_report env userQuery).research_summary
        (generate_report env userQuery).outline,
      rfl, writerUserPrompt_contains_research _ _, writerUserPrompt_contains_outline _ _⟩,
    ⟨editorUserPrompt (generate_report env userQuery).research_summary
        (generate_report env userQuery).outline (generate_report env userQuery).draft,
      rfl, editorUserPrompt_contains_research _ _ _,
      editorUserPrompt_contains_outline _ _ _, editorUserPrompt_contains_draft _ _ _⟩⟩

/-- C8 counterexample: the edit stage's sampling temperature equals the
research stage's, so the four stages do not use pairwise materially
different temperatures and edit is not strictly the lowest of the four. -/
theorem stage_temperatures_counterexample :
    editTemperature = researchTemperature ∧
    ¬ editTemperature < researchTemperature := by
  constructor
  · rfl
  · norm_num [editTemperature, researchTemperature, callWithToolsTemperature]

/-- C8 (amended): the stages run at research 0.2 (every research round trip
goes through the tool-calling loop's fixed payload temperature), outline
0.3, draft 0.4 and edit 0.2: the draft temperature is strictly above the
research and outline temperatures, and the edit temperature ties with the
research temperature for the lowest instead of being strictly the lowest. -/
theorem stage_temperature_gradient (env : MASEnv) (userQuery : String) :
    (generate_report env userQuery).outline =
      env.nemotronCall outlineSystemPrompt
        (outlineUserPrompt userQuery (generate_report env userQuery).research_summary)
        outlineTemperature 1024 ∧
    (generate_report env userQuery).draft =
      env.nemotronCall writerSystemPrompt
        (writerUserPrompt (generate_report env userQuery).research_summary
          (generate_report env userQuery).outline) draftTemperature 2048 ∧
    (generate_report env userQuery).final_report =
      env.nemotronCall editorSystemPrompt
        (editorUserPrompt (generate_report env userQuery).research_summary
          (generate_report env userQuery).outline
          (generate_report env userQuery).draft) editTemperature 2048 ∧
    researchTemperature = callWithToolsTemperature ∧
    researchTemperature = 0.2 ∧ outlineTemperature = 0.3 ∧
    draftTemperature = 0.4 ∧ editTemperature = 0.2 ∧
    researchTemperature < outlineTemperature ∧
    outlineTemperature < draftTemperature ∧
    researchTemperature < draftTemperature ∧
    editTemperature = researchTemperature ∧
    editTemperature < outlineTemperature ∧
    editTemperature < draftTemperature := by
  refine ⟨rfl, rfl, rfl, rfl, rfl, rfl, rfl, rfl, ?_, ?_, ?_, rfl, ?_, ?_⟩ <;>
    norm_num [researchTemperature, outlineTemperature, draftTemperature,
      editTemperature, callWithToolsTemperature]

end TMW
